import Mathlib

/-!
Verification development for the three I2C sensor drivers of this repository
(src/bmp280.rs, src/ccs811.rs, src/tmp102.rs), shallowly embedded in Lean.

Machine integers are modelled as `Int` with explicit two's-complement wrapping
(`wrap32`, `wrap64`) at every arithmetic operation, matching release-mode Rust
semantics for `i32`/`i64`.  Rust's arithmetic shift right on signed integers is
floor division by a power of two (`asr`); shift left is multiplication followed
by wrapping.  The final `f32` scale-downs (`/ 100.0`, `/ 25600.0`, `* 0.0625`)
are modelled as exact rational division: every concrete value appearing in the
theorems below (0, 62.5, multiples of 1/16, values on the 1/512 grid) is exactly
representable in `f32`, and equality of the exact rationals transfers to
equality of the floats, so this abstraction is faithful for the stated claims.

Rust `Result`/panic outcomes: code that can panic is embedded with the
three-way `Outcome` type (`ok` / `err` / `panicked`); code that only returns
`Result` is embedded with `Except`.  Rust `format!` error strings are embedded
as tagged constructors carrying the formatted arguments.
-/

/-- Two's-complement wrap into the `i32` range, i.e. release-mode Rust `i32`
overflow semantics. -/
def wrap32 (x : Int) : Int := (x + 2 ^ 31) % 2 ^ 32 - 2 ^ 31

/-- Two's-complement wrap into the `i64` range, i.e. release-mode Rust `i64`
overflow semantics. -/
def wrap64 (x : Int) : Int := (x + 2 ^ 63) % 2 ^ 64 - 2 ^ 63

/-- Arithmetic shift right on a signed value: Rust `x >> n` on `i32`/`i64`,
which is floor division by `2 ^ n`. -/
def asr (x : Int) (n : Nat) : Int := Int.fdiv x (2 ^ n)

/-- `u16::from_le_bytes([a, b])`. -/
def u16le (a b : Nat) : Int := (a + 256 * b : Nat)

/-- `i16::from_le_bytes([a, b])`: the little-endian `u16` reinterpreted as a
two's-complement `i16`. -/
def i16le (a b : Nat) : Int :=
  let v : Nat := a + 256 * b
  if v < 32768 then (v : Int) else (v : Int) - 65536

-- --- --- --- --- BMP280 (src/bmp280.rs) --- --- --- ---

/-- `REG_CALIBRATION_START`: start of the calibration register block (0x88). -/
def REG_CALIBRATION_START : Nat := 0x88

/-- `REG_TEMPERATURE_START`: start of the temperature data register (0xFA). -/
def REG_TEMPERATURE_START : Nat := 0xFA

/-- `REG_PRESSURE_START`: start of the pressure data register (0xF7).  Declared
in the source with this comment but never used by it. -/
def REG_PRESSURE_START : Nat := 0xF7

/-- The `Calibration` record of src/bmp280.rs: `dig_t1`/`dig_p1` are `u16`,
the rest are `i16`; all are held here as mathematical integers as produced by
`u16le`/`i16le`. -/
structure Calibration where
  dig_t1 : Int
  dig_t2 : Int
  dig_t3 : Int
  dig_p1 : Int
  dig_p2 : Int
  dig_p3 : Int
  dig_p4 : Int
  dig_p5 : Int
  dig_p6 : Int
  dig_p7 : Int
  dig_p8 : Int
  dig_p9 : Int
deriving DecidableEq

/-- The mutable fields of the `BMP280` driver struct: the fine-temperature
intermediate and the optional calibration record. -/
structure BMP280 where
  t_fine : Int
  calib : Option Calibration
deriving DecidableEq

/-- The I2C transport as the BMP280 driver uses it: a 3-byte `write_read` at a
register (temperature and pressure data reads), a 24-byte `write_read` at a
register (calibration block read), and `set_slave_address`.  `none` / `false`
model a failed bus exchange. -/
structure I2CBus where
  read3 : Nat → Option (Nat × Nat × Nat)
  read24 : Nat → Option (List Nat)
  setAddr : Bool

/-- Outcome of a Rust call that may return `Ok`, return `Err`, or panic
(`expect` / `unwrap`). -/
inductive Outcome (α : Type) where
  | ok : α → Outcome α
  | err : String → Outcome α
  | panicked : String → Outcome α
deriving DecidableEq

/-- Lines 86-87 of src/bmp280.rs: assemble the 20-bit raw ADC code
`((b0 as i32) << 12) | ((b1 as i32) << 4) | ((b2 as i32) >> 4)` from three
bytes (each `< 256`, so the `i32` arithmetic cannot wrap). -/
def rawCode20 (b0 b1 b2 : Nat) : Int :=
  ((b0 <<< 12) ||| (b1 <<< 4) ||| (b2 >>> 4) : Nat)

/-- Lines 89-96 of src/bmp280.rs: the two-term `i32` fixed-point temperature
compensation producing `t_fine` from the raw code and the calibration. -/
def t_fine_calc (c : Calibration) (raw_temp : Int) : Int :=
  let var1 := asr (wrap32 (wrap32 (asr raw_temp 3 - wrap32 (c.dig_t1 * 2)) * c.dig_t2)) 11
  let var2 := asr (wrap32 (asr (wrap32 (wrap32 (asr raw_temp 4 - c.dig_t1) *
    wrap32 (asr raw_temp 4 - c.dig_t1))) 12 * c.dig_t3)) 14
  wrap32 (var1 + var2)

/-- Line 97 of src/bmp280.rs: `(t_fine * 5 + 128) >> 8`, the reported
temperature in hundredths of a degree. -/
def temperature_int (t_fine : Int) : Int := asr (wrap32 (wrap32 (t_fine * 5) + 128)) 8

/-- Lines 119-125 of src/bmp280.rs: the first-stage pressure intermediate
`var1` after the `dig_p1` stage — the value the division-by-zero guard tests. -/
def pressure_var1 (c : Calibration) (t_fine : Int) : Int :=
  let v := wrap64 (t_fine - 128000)
  let v1 := wrap64 (asr (wrap64 (wrap64 (v * v) * c.dig_p3)) 8 +
    wrap64 (wrap64 (v * c.dig_p2) * 2 ^ 12))
  asr (wrap64 (wrap64 (2 ^ 47 + v1) * c.dig_p1)) 33

/-- Lines 119-135 of src/bmp280.rs: the full `i64` fixed-point pressure
compensation, yielding the integer whose `f32` image is divided by 25600.0.
Returns 0 when the first-stage `var1` is exactly zero. -/
def pressure_int (c : Calibration) (t_fine : Int) (raw_press : Int) : Int :=
  let v := wrap64 (t_fine - 128000)
  let var2 := wrap64 (wrap64 (v * v) * c.dig_p6)
  let var2 := wrap64 (var2 + wrap64 (wrap64 (v * c.dig_p5) * 2 ^ 17))
  let var2 := wrap64 (var2 + wrap64 (c.dig_p4 * 2 ^ 35))
  let var1 := pressure_var1 c t_fine
  if var1 = 0 then 0
  else
    let p := wrap64 (1048576 - raw_press)
    let p := Int.tdiv (wrap64 (wrap64 (wrap64 (p * 2 ^ 31) - var2) * 3125)) var1
    let v1 := asr (wrap64 (wrap64 (c.dig_p9 * asr p 13) * asr p 13)) 25
    let v2 := asr (wrap64 (c.dig_p8 * p)) 19
    wrap64 (asr (wrap64 (wrap64 (p + v1) + v2)) 8 + wrap64 (c.dig_p7 * 2 ^ 4))

/-- `BMP280::read_calibration` (lines 44-67): `set_address().expect(..)`, a
24-byte `write_read` at `REG_CALIBRATION_START` with `.expect(..)`, then the
little-endian decode of the 12 coefficients. -/
def BMP280.read_calibration (s : BMP280) (bus : I2CBus) : Outcome BMP280 :=
  if bus.setAddr then
    match bus.read24 REG_CALIBRATION_START with
    | none => .panicked "Calibration failed during I2C"
    | some data =>
      let d := fun i => data.getD i 0
      .ok { s with calib := some {
        dig_t1 := u16le (d 0) (d 1)
        dig_t2 := i16le (d 2) (d 3)
        dig_t3 := i16le (d 4) (d 5)
        dig_p1 := u16le (d 6) (d 7)
        dig_p2 := i16le (d 8) (d 9)
        dig_p3 := i16le (d 10) (d 11)
        dig_p4 := i16le (d 12) (d 13)
        dig_p5 := i16le (d 14) (d 15)
        dig_p6 := i16le (d 16) (d 17)
        dig_p7 := i16le (d 18) (d 19)
        dig_p8 := i16le (d 20) (d 21)
        dig_p9 := i16le (d 22) (d 23) } }
  else .panicked "Failed to set I2C address"

/-- `BMP280::read_temperature` (lines 75-101): a 3-byte `write_read` at
`REG_TEMPERATURE_START` with `.expect("Temp read failed on I2C")`, then
`self.calib.as_ref().expect("Temp read failed; calibration data unknown")`,
then the compensation, storing `t_fine` and returning degrees Celsius
(`temperature as f32 / 100.0`, modelled as exact rational division). -/
def BMP280.read_temperature (s : BMP280) (bus : I2CBus) : Outcome (ℚ × BMP280) :=
  match bus.read3 REG_TEMPERATURE_START with
  | none => .panicked "Temp read failed on I2C"
  | some (b0, b1, b2) =>
    match s.calib with
    | none => .panicked "Temp read failed; calibration data unknown"
    | some c =>
      let tf := t_fine_calc c (rawCode20 b0 b1 b2)
      .ok ((temperature_int tf : ℚ) / 100, { s with t_fine := tf })

/-- `BMP280::read_pressure` (lines 103-139): first `self.read_temperature()?`
(which refreshes `t_fine`), then a 3-byte `write_read` issued at
`REG_CALIBRATION_START` — the source reads the pressure bytes from the
calibration register offset 0x88, not from `REG_PRESSURE_START` — with
`.expect("Pressure read failed during I2C")`, then the calibration `expect`,
then the 64-bit compensation, returning hPa
(`pressure as f32 / 25600.0`, modelled as exact rational division). -/
def BMP280.read_pressure (s : BMP280) (bus : I2CBus) : Outcome (ℚ × BMP280) :=
  match s.read_temperature bus with
  | .err e => .err e
  | .panicked m => .panicked m
  | .ok (_, s1) =>
    match bus.read3 REG_CALIBRATION_START with
    | none => .panicked "Pressure read failed during I2C"
    | some (b0, b1, b2) =>
      let raw_press := rawCode20 b0 b1 b2
      match s1.calib with
      | none => .panicked "Temp read failed; calibration data unknown"
      | some c =>
        .ok ((pressure_int c s1.t_fine raw_press : ℚ) / 25600, s1)

-- --- --- --- --- CCS811 (src/ccs811.rs) --- --- --- ---

/-- `CCS811_SLAVEADDR_0` (0x5A). -/
def CCS811_SLAVEADDR_0 : Nat := 0x5A

/-- `CCS811_STATUS` register (0x00). -/
def CCS811_STATUS : Nat := 0x00

/-- `CCS811_ALG_RESULT_DATA` register (0x02). -/
def CCS811_ALG_RESULT_DATA : Nat := 0x02

/-- `CCS811_HW_ID` register (0x20). -/
def CCS811_HW_ID : Nat := 0x20

/-- `CCS811_APP_START` mailbox (0xF4). -/
def CCS811_APP_START : Nat := 0xF4

/-- `CCS811_SW_RESET` mailbox (0xFF). -/
def CCS811_SW_RESET : Nat := 0xFF

/-- `CCS811_STATUS_APP_MODE` bit (0b10000000). -/
def CCS811_STATUS_APP_MODE : Nat := 0b10000000

/-- `CCS811_STATUS_APP_VERIFY` bit (0b00100000). -/
def CCS811_STATUS_APP_VERIFY : Nat := 0b00100000

/-- The error values of src/ccs811.rs: each Rust `format!` error string is
embedded as a constructor carrying the formatted arguments (the underlying
transport error text interpolated into bus-failure messages is abstracted
into the fixed context string of the message). -/
inductive CcsErr where
  | busErr (context : String)
  | hwIdMismatch (got : Nat)
  | statusMismatch (expected actual : Nat)
  | dataError (errByte : Nat)
  | outOfRange (tvoc eco2 : Nat)
deriving DecidableEq

/-- The I2C transport as the CCS811 driver uses it: `set_slave_address`, raw
`write`, `block_write`, `smbus_read_byte`, and `block_read` (register and
buffer length).  `false` / `none` model a failed bus exchange. -/
structure CcsBus where
  setSlave : Nat → Bool
  write : List Nat → Bool
  blockWrite : Nat → List Nat → Bool
  readByte : Nat → Option Nat
  blockRead : Nat → Nat → Option (List Nat)

/-- `Ccs811Data` (lines 66-70): decoded tVOC and eCO2 plus the raw bytes. -/
structure Ccs811Data where
  t_voc : Nat
  e_co2 : Nat
  raw : List Nat
deriving DecidableEq

/-- Rust `as u16` on an `f32`: truncation toward zero, saturating at the
`u16` bounds. -/
def castU16sat (q : ℚ) : Nat := if q < 0 then 0 else min (Int.toNat ⌊q⌋) 65535

/-- Rust `as u8` on an `f32`: truncation toward zero, saturating at the
`u8` bounds. -/
def castU8sat (q : ℚ) : Nat := if q < 0 then 0 else min (Int.toNat ⌊q⌋) 255

/-- `float_to_bytes` (lines 54-64): `base = value.floor()`;
`fraction = min(((value - base) * 512.0 - 1.0) as u16, 511)`;
`hi = ((base as u8 & 0b1111111) << 1) | ((fraction & 0b100000000) >> 8) as u8`;
`lo = (fraction & 0xFF) as u8`.  On the 1/512-grid inputs of claim C8 every
`f32` operation involved is exact, so rationals model the floats faithfully. -/
def float_to_bytes (value : ℚ) : Nat × Nat :=
  let base : ℚ := ⌊value⌋
  let fraction := min (castU16sat ((value - base) * 512 - 1)) 511
  let hi := ((castU8sat base &&& 0b1111111) <<< 1) ||| ((fraction &&& 0b100000000) >>> 8)
  let lo := fraction &&& 0xFF
  (hi, lo)

/-- Modelled from the spec: the datasheet inverse of the environmental
compensation encoding, absent from the source — 7 integer bits in the high
byte above 1 fractional high bit, 8 fractional low bits, 1/512 resolution:
`value = (hi >> 1) + (((hi & 1) << 8) | lo) / 512`. -/
def env_decode (hi lo : Nat) : ℚ :=
  ((hi >>> 1 : Nat) : ℚ) + (((hi &&& 1) * 256 + lo : Nat) : ℚ) / 512

/-- `CCS811::reset` (lines 82-90): `block_write(CCS811_SW_RESET, [0x11, 0xE5,
0x72, 0x8A])`, error mapped to a bus-error message (the settle sleep has no
observable effect in this model). -/
def CCS811.reset (bus : CcsBus) : Except CcsErr Unit :=
  if bus.blockWrite CCS811_SW_RESET [0x11, 0xE5, 0x72, 0x8A] then .ok ()
  else .error (.busErr "Could not write to I2C")

/-- `CCS811::app_start` (lines 92-100): zero-length-payload `write([CCS811_APP_START])`. -/
def CCS811.app_start (bus : CcsBus) : Except CcsErr Unit :=
  if bus.write [CCS811_APP_START] then .ok ()
  else .error (.busErr "Could not set App start")

/-- `CCS811::check_hw_id` (lines 112-123): read `CCS811_HW_ID`; fail unless it
equals 0x81. -/
def CCS811.check_hw_id (bus : CcsBus) : Except CcsErr Unit :=
  match bus.readByte CCS811_HW_ID with
  | none => .error (.busErr "Could not read HWID")
  | some hw_id => if hw_id ≠ 0x81 then .error (.hwIdMismatch hw_id) else .ok ()

/-- `CCS811::check_status` (lines 125-139): read `CCS811_STATUS`; fail with the
expected/actual report when `(status & expected) == 0`. -/
def CCS811.check_status (bus : CcsBus) (expected : Nat) : Except CcsErr Unit :=
  match bus.readByte CCS811_STATUS with
  | none => .error (.busErr "Could not read chip status")
  | some status =>
    if status &&& expected = 0 then .error (.statusMismatch expected status)
    else .ok ()

/-- `CCS811::begin` (lines 154-165): set the slave address, then
`reset().and(check_hw_id()).and(app_start()).and(check_status(CCS811_STATUS_APP_MODE | CCS811_STATUS_APP_VERIFY))`.
Rust `Result::and` evaluates all four steps eagerly and keeps the first error;
over this pure bus model the resulting value is that of the short-circuiting
monadic chain. -/
def CCS811.begin (bus : CcsBus) : Except CcsErr Unit :=
  if bus.setSlave CCS811_SLAVEADDR_0 then do
    CCS811.reset bus
    CCS811.check_hw_id bus
    CCS811.app_start bus
    CCS811.check_status bus (CCS811_STATUS_APP_MODE ||| CCS811_STATUS_APP_VERIFY)
  else .error (.busErr "Could not set slave addr")

/-- `CCS811::read` (lines 272-297): `block_read(CCS811_ALG_RESULT_DATA)` into
an 8-byte buffer; if `buffer[5] != 0` fail with the data-error report; decode
`e_co2 = buffer[0] * 256 + buffer[1]` and `t_voc = buffer[2] * 256 + buffer[3]`;
if `t_voc > 1187 || e_co2 > 8192` fail with the above-max report; else return
the data with the raw bytes. -/
def CCS811.read (bus : CcsBus) : Except CcsErr Ccs811Data :=
  match bus.blockRead CCS811_ALG_RESULT_DATA 8 with
  | none => .error (.busErr "Could not read chip data")
  | some buffer =>
    let b := fun i => buffer.getD i 0
    if b 5 ≠ 0 then .error (.dataError (b 5))
    else
      let e_co2 := b 0 * 256 + b 1
      let t_voc := b 2 * 256 + b 3
      if t_voc > 1187 ∨ e_co2 > 8192 then .error (.outOfRange t_voc e_co2)
      else .ok { t_voc := t_voc, e_co2 := e_co2, raw := buffer }

-- --- --- --- --- TMP102 (src/tmp102.rs) --- --- --- ---

/-- The I2C transport as the TMP102 driver uses it: `set_slave_address` (whose
result the source ignores) and a 2-byte `write_read` at a register, which on
failure carries the transport error that `read` propagates with `?`. -/
structure TmpBus where
  setAddr : Bool
  read2 : Nat → Except String (Nat × Nat)

/-- Reinterpret a `u16` bit pattern as a two's-complement `i16`
(the `as i16` cast on line 34 of src/tmp102.rs). -/
def i16ofBits (v : Nat) : Int :=
  if v < 32768 then (v : Int) else (v : Int) - 65536

/-- `TMP102::read` (lines 19-38): select address 0x48 (result ignored), 2-byte
`write_read` at register 0x00 (`?` propagates a transport failure), assemble
`raw_temp = (b0 << 4) | (b1 >> 4)`, and scale by 0.0625 (= 1/16, exact in
`f32` for every 12-bit input, modelled as exact rational arithmetic), with
`(raw_temp | 0xF000) as i16` when bit 11 is set. -/
def TMP102.read (bus : TmpBus) : Except String ℚ :=
  match bus.read2 0x00 with
  | .error e => .error e
  | .ok (b0, b1) =>
    let raw_temp : Nat := (b0 <<< 4) ||| (b1 >>> 4)
    if raw_temp &&& 0x800 = 0 then .ok ((raw_temp : ℚ) / 16)
    else .ok ((i16ofBits (raw_temp ||| 0xF000) : ℚ) / 16)


-- --- --- --- --- Concrete states and buses used by the closed theorems --- --- --- ---

/-- A calibration whose only nonzero coefficient is `dig_p1 = 1`, making the
first-stage pressure denominator nonzero while keeping all other terms zero. -/
def calP1 : Calibration := ⟨0, 0, 0, 1, 0, 0, 0, 0, 0, 0, 0, 0⟩

/-- The all-zero calibration; its `dig_p1 = 0` forces the first-stage pressure
denominator to zero. -/
def calZero : Calibration := ⟨0, 0, 0, 0, 0, 0, 0, 0, 0, 0, 0, 0⟩

/-- A driver state calibrated with `calP1`. -/
def sP1 : BMP280 := { t_fine := 0, calib := some calP1 }

/-- A driver state calibrated with `calZero`. -/
def sZero : BMP280 := { t_fine := 0, calib := some calZero }

/-- A driver state on which calibration has not been loaded. -/
def sNoCal : BMP280 := { t_fine := 0, calib := none }

/-- Another uncalibrated driver state, with a stale fine-temperature value. -/
def sNoCal2 : BMP280 := { t_fine := 5, calib := none }

/-- A bus on which every 3-byte data read returns zero bytes. -/
def busT000 : I2CBus :=
  { read3 := fun _ => some (0, 0, 0), read24 := fun _ => none, setAddr := true }

/-- A bus whose temperature register reads zero, whose calibration register
reads bytes 255/255/255, and whose pressure register reads zero. -/
def busPressA : I2CBus :=
  { read3 := fun r =>
      if r = REG_TEMPERATURE_START then some (0, 0, 0)
      else if r = REG_CALIBRATION_START then some (255, 255, 255)
      else if r = REG_PRESSURE_START then some (0, 0, 0)
      else none
    read24 := fun _ => none
    setAddr := true }

/-- Same as `busPressA` except the bytes at `REG_PRESSURE_START` differ. -/
def busPressB : I2CBus :=
  { read3 := fun r =>
      if r = REG_TEMPERATURE_START then some (0, 0, 0)
      else if r = REG_CALIBRATION_START then some (255, 255, 255)
      else if r = REG_PRESSURE_START then some (1, 2, 3)
      else none
    read24 := fun _ => none
    setAddr := true }

/-- Same as `busPressA` except the bytes at `REG_CALIBRATION_START` differ. -/
def busPressC : I2CBus :=
  { read3 := fun r =>
      if r = REG_TEMPERATURE_START then some (0, 0, 0)
      else if r = REG_CALIBRATION_START then some (0, 0, 0)
      else if r = REG_PRESSURE_START then some (0, 0, 0)
      else none
    read24 := fun _ => none
    setAddr := true }

/-- A bus on which setting the slave address fails. -/
def busNoAddr : I2CBus :=
  { read3 := fun _ => some (0, 0, 0), read24 := fun _ => some [], setAddr := false }

/-- A bus on which every data exchange fails. -/
def busDead : I2CBus :=
  { read3 := fun _ => none, read24 := fun _ => none, setAddr := true }

/-- A bus on which only the temperature register read succeeds. -/
def busTempOnly : I2CBus :=
  { read3 := fun r => if r = REG_TEMPERATURE_START then some (0, 0, 0) else none
    read24 := fun _ => none
    setAddr := true }

/-- A bus with temperature raw code `1 << 12` and zero pressure bytes. -/
def busTemp1 : I2CBus :=
  { read3 := fun r => if r = REG_TEMPERATURE_START then some (1, 0, 0)
      else if r = REG_CALIBRATION_START then some (0, 0, 0) else none
    read24 := fun _ => none
    setAddr := true }

/-- A bus with temperature raw code `2 << 12` and zero pressure bytes. -/
def busTemp2 : I2CBus :=
  { read3 := fun r => if r = REG_TEMPERATURE_START then some (2, 0, 0)
      else if r = REG_CALIBRATION_START then some (0, 0, 0) else none
    read24 := fun _ => none
    setAddr := true }

/-- A CCS811 bus on which all writes succeed, the hardware id reads 0x81, and
the status register reads 0x80: application-mode bit set, verify bit clear. -/
def busStatus80 : CcsBus :=
  { setSlave := fun _ => true
    write := fun _ => true
    blockWrite := fun _ _ => true
    readByte := fun r => if r = CCS811_HW_ID then some 0x81 else
      if r = CCS811_STATUS then some 0x80 else none
    blockRead := fun _ _ => none }

/-- A CCS811 bus like `busStatus80` but whose status register reads 0x00. -/
def busStatusZero : CcsBus :=
  { setSlave := fun _ => true
    write := fun _ => true
    blockWrite := fun _ _ => true
    readByte := fun r => if r = CCS811_HW_ID then some 0x81 else
      if r = CCS811_STATUS then some 0x00 else none
    blockRead := fun _ _ => none }

/-- A CCS811 bus whose result block decodes to eCO2 = 300 ppm (below the 400
ppm plausibility floor) and tVOC = 0, with a clear error byte. -/
def busCO300 : CcsBus :=
  { setSlave := fun _ => true
    write := fun _ => true
    blockWrite := fun _ _ => true
    readByte := fun _ => none
    blockRead := fun r n =>
      if r = CCS811_ALG_RESULT_DATA ∧ n = 8 then some [1, 44, 0, 0, 0, 0, 0, 0] else none }

/-- A CCS811 bus whose result block decodes to tVOC = 2048 ppb, above the 1187
ppb ceiling. -/
def busVocHigh : CcsBus :=
  { setSlave := fun _ => true
    write := fun _ => true
    blockWrite := fun _ _ => true
    readByte := fun _ => none
    blockRead := fun r n =>
      if r = CCS811_ALG_RESULT_DATA ∧ n = 8 then some [0, 0, 8, 0, 0, 0, 0, 0] else none }

/-- A CCS811 bus whose result block has in-range readings (eCO2 = 450 ppm,
tVOC = 0 ppb) but a nonzero chip error byte at index 5. -/
def busErrByte : CcsBus :=
  { setSlave := fun _ => true
    write := fun _ => true
    blockWrite := fun _ _ => true
    readByte := fun _ => none
    blockRead := fun r n =>
      if r = CCS811_ALG_RESULT_DATA ∧ n = 8 then some [1, 194, 0, 0, 0, 1, 0, 0] else none }

/-- A CCS811 bus on which every exchange fails. -/
def busDeadCcs : CcsBus :=
  { setSlave := fun _ => true, write := fun _ => true, blockWrite := fun _ _ => true
    readByte := fun _ => none, blockRead := fun _ _ => none }

/-- A TMP102 bus returning bytes 0xF0, 0x00: raw code 0xF00, bit 11 set. -/
def busTmpNeg : TmpBus := { setAddr := true, read2 := fun _ => .ok (0xF0, 0) }

/-- A TMP102 bus returning bytes 0x00, 0x00: raw code 0x000. -/
def busTmpZero : TmpBus := { setAddr := true, read2 := fun _ => .ok (0, 0) }

/-- A TMP102 bus whose 2-byte read fails with a transport error. -/
def busDeadTmp : TmpBus := { setAddr := true, read2 := fun _ => .error "i2c failure" }

-- --- --- --- --- Helper lemmas --- --- --- ---

set_option maxRecDepth 8000

/-- Masking a 7-bit value with 0b1111111 is the identity. -/
lemma and127 : ∀ q < 128, q &&& 127 = q := by decide

/-- Selecting bit 8 of a 9-bit value and shifting it down is division by 256. -/
lemma and256shr : ∀ f < 512, (f &&& 256) >>> 8 = f / 256 := by decide

/-- Shifting a 7-bit value left by one and or-ing a single bit is arithmetic. -/
lemma shl_or_bit : ∀ q < 128, ∀ b < 2, (q <<< 1) ||| b = 2 * q + b := by decide

/-- Shifting `2 * q + b` right by one recovers `q` for a single bit `b`. -/
lemma two_mul_add_shr : ∀ q < 128, ∀ b < 2, (2 * q + b) >>> 1 = q := by decide

/-- Masking `2 * q + b` with 1 recovers the single bit `b`. -/
lemma two_mul_add_and1 : ∀ q < 128, ∀ b < 2, (2 * q + b) &&& 1 = b := by decide

/-- Masking a 9-bit value with 0xFF is reduction modulo 256. -/
lemma and255 : ∀ f < 512, f &&& 255 = f % 256 := by decide

/-- Floor of a grid value `q + m / 512` with `m < 512` is `q`. -/
lemma floor_grid (q m : Nat) (hm : m < 512) : ⌊(q : ℚ) + (m : ℚ) / 512⌋ = (q : ℤ) := by
  rw [add_comm, Int.floor_add_nat]
  have h0 : ⌊(m : ℚ) / 512⌋ = 0 := by
    rw [Int.floor_eq_zero_iff]
    constructor
    · positivity
    · rw [div_lt_one (by norm_num)]
      exact_mod_cast hm
  rw [h0, zero_add]

/-- The saturating `as u8` cast is the identity on small whole numbers. -/
lemma castU8sat_natCast (q : Nat) (hq : q < 127) : castU8sat (q : ℚ) = q := by
  rw [castU8sat, if_neg (not_lt.mpr (Nat.cast_nonneg q))]
  rw [Int.floor_natCast, Int.toNat_natCast]
  omega

/-- Evaluation of `float_to_bytes` on the exactly representable grid
`q + m / 512`: the fraction field stores `m - 1` (clamped at zero when
`m = 0`) because of the `- 1.0` in the source, split into its bit 8 (packed
into the high byte) and its low 8 bits. -/
lemma float_to_bytes_grid (q m : Nat) (hq : q < 127) (hm : m < 512) :
    float_to_bytes ((q : ℚ) + (m : ℚ) / 512) =
      (2 * q + (if m = 0 then 0 else m - 1) / 256, (if m = 0 then 0 else m - 1) % 256) := by
  have hfl := floor_grid q m hm
  have hbase : (⌊(q : ℚ) + (m : ℚ) / 512⌋ : ℚ) = (q : ℚ) := by rw [hfl]; norm_cast
  have hdiff : ((q : ℚ) + (m : ℚ) / 512 - (⌊(q : ℚ) + (m : ℚ) / 512⌋ : ℚ)) * 512 - 1
      = (m : ℚ) - 1 := by rw [hbase]; ring
  rw [float_to_bytes]
  rw [hdiff, hbase, castU8sat_natCast q hq]
  by_cases hm0 : m = 0
  · have hcast : castU16sat ((m : ℚ) - 1) = 0 := by
      rw [castU16sat, if_pos]
      rw [hm0]
      norm_num
    rw [hcast]
    have hmin : min (0 : Nat) 511 = 0 := by omega
    rw [hmin]
    have h1 : q &&& 127 = q := and127 q (by omega)
    have h2 : ((0 : Nat) &&& 256) >>> 8 = 0 := rfl
    have h3 : (q <<< 1) ||| 0 = 2 * q + 0 := shl_or_bit q (by omega) 0 (by omega)
    rw [h1, h2, h3]
    simp [hm0]
  · have hm1 : 1 ≤ m := by omega
    have hcast : castU16sat ((m : ℚ) - 1) = m - 1 := by
      rw [castU16sat, if_neg]
      · have hmq : ((m : ℚ) - 1) = ((m - 1 : ℕ) : ℚ) := by push_cast [hm1]; ring
        rw [hmq, Int.floor_natCast, Int.toNat_natCast]
        omega
      · push_neg
        have : (1 : ℚ) ≤ (m : ℚ) := by exact_mod_cast hm1
        linarith
    rw [hcast]
    have hmin : min (m - 1) 511 = m - 1 := by omega
    rw [hmin]
    have h1 : q &&& 127 = q := and127 q (by omega)
    have h2 : ((m - 1) &&& 256) >>> 8 = (m - 1) / 256 := and256shr (m - 1) (by omega)
    have h3 : (q <<< 1) ||| ((m - 1) / 256) = 2 * q + (m - 1) / 256 :=
      shl_or_bit q (by omega) ((m - 1) / 256) (by omega)
    have h4 : (m - 1) &&& 255 = (m - 1) % 256 := and255 (m - 1) (by omega)
    rw [h1, h2, h3, h4]
    simp [hm0]

/-- Evaluation of the datasheet inverse formula on an encoded pair. -/
lemma env_decode_grid (q f : Nat) (hq : q < 128) (hf : f < 512) :
    env_decode (2 * q + f / 256) (f % 256) = (q : ℚ) + (f : ℚ) / 512 := by
  rw [env_decode]
  have hb : f / 256 < 2 := by omega
  rw [two_mul_add_shr q hq (f / 256) hb, two_mul_add_and1 q hq (f / 256) hb]
  have hrec : f / 256 * 256 + f % 256 = f := by omega
  rw [hrec]

/-- Or-ing with 0xF000 always sets bit 15, so the result is not below 0x8000. -/
lemma or_hi_not_lt (r : Nat) : ¬(r ||| 61440 < 32768) := by
  intro h
  have h15 : (r ||| 61440).testBit 15 = false := Nat.testBit_eq_false_of_lt (by omega)
  rw [Nat.testBit_lor] at h15
  have h61440 : Nat.testBit 61440 15 = true := by decide
  rw [h61440, Bool.or_true] at h15
  simp at h15

/-- Unfolding of `BMP280.read_pressure` on successful exchanges: the returned
pressure is computed from the fine-value of the temperature bytes sampled in
this same call (the incoming `s.t_fine` does not appear), and the raw pressure
code is assembled from the bytes read at `REG_CALIBRATION_START`. -/
lemma BMP280.read_pressure_spec (c : Calibration) (s : BMP280) (bus : I2CBus)
    (t0 t1 t2 p0 p1 p2 : Nat)
    (hc : s.calib = some c)
    (ht : bus.read3 REG_TEMPERATURE_START = some (t0, t1, t2))
    (hp : bus.read3 REG_CALIBRATION_START = some (p0, p1, p2)) :
    BMP280.read_pressure s bus =
      .ok ((pressure_int c (t_fine_calc c (rawCode20 t0 t1 t2)) (rawCode20 p0 p1 p2) : ℚ) / 25600,
        { t_fine := t_fine_calc c (rawCode20 t0 t1 t2), calib := some c }) := by
  simp [BMP280.read_pressure, BMP280.read_temperature, hc, ht, hp]

-- --- --- --- --- Claim theorems --- --- --- ---

/-- Claim C1: the claim states that `read_pressure()` reads its 3 raw pressure
bytes from the pressure data register (`REG_PRESSURE_START`, 0xF7).  The source
instead issues that read at `REG_CALIBRATION_START` (0x88, line 108 of
src/bmp280.rs), leaving the declared pressure-register constant unused.  This
theorem exhibits the divergence at a concrete input: `busPressB` differs from
`busPressA` only in the bytes served at the pressure register, and the result
of `read_pressure` is unchanged; `busPressC` differs from `busPressA` only in
the bytes served at the calibration register, and the result changes
(62.5 hPa versus 65536000 hPa). -/
theorem claim_C1_pressure_register_bug :
    busPressA.read3 REG_PRESSURE_START ≠ busPressB.read3 REG_PRESSURE_START ∧
    busPressA.read3 REG_TEMPERATURE_START = busPressB.read3 REG_TEMPERATURE_START ∧
    busPressA.read3 REG_CALIBRATION_START = busPressB.read3 REG_CALIBRATION_START ∧
    BMP280.read_pressure sP1 busPressA = BMP280.read_pressure sP1 busPressB ∧
    busPressA.read3 REG_CALIBRATION_START ≠ busPressC.read3 REG_CALIBRATION_START ∧
    busPressA.read3 REG_TEMPERATURE_START = busPressC.read3 REG_TEMPERATURE_START ∧
    busPressA.read3 REG_PRESSURE_START = busPressC.read3 REG_PRESSURE_START ∧
    BMP280.read_pressure sP1 busPressA ≠ BMP280.read_pressure sP1 busPressC := by
  refine ⟨by decide, rfl, rfl, rfl, by decide, rfl, rfl, ?_⟩
  rw [BMP280.read_pressure_spec calP1 sP1 busPressA 0 0 0 255 255 255 rfl rfl rfl,
    BMP280.read_pressure_spec calP1 sP1 busPressC 0 0 0 0 0 0 rfl rfl rfl]
  have h1 : pressure_int calP1 (t_fine_calc calP1 (rawCode20 0 0 0)) (rawCode20 255 255 255)
      = 1600000 := by decide
  have h2 : pressure_int calP1 (t_fine_calc calP1 (rawCode20 0 0 0)) (rawCode20 0 0 0)
      = 1677721600000 := by decide
  rw [h1, h2]
  intro h
  injection h with h
  have := congrArg Prod.fst h
  norm_num at this

/-- Claim C2, counterexample: the claim states that `begin()` succeeds at the
status-verification step only if both the application-mode bit (0x80) and the
verify-complete bit (0x20) are set.  On `busStatus80` the status byte is 0x80 —
the verify-complete bit is clear — yet `begin` succeeds, because the source
test `(status & expected) == 0` only rejects a status with both bits clear. -/
theorem claim_C2_counterexample :
    CCS811.begin busStatus80 = .ok () ∧ 0x80 &&& CCS811_STATUS_APP_VERIFY = 0 := ⟨rfl, rfl⟩

/-- Claim C2, amended: when the slave address is set, the reset write, the
application start write and both register reads succeed, and the hardware id is
0x81, `begin()` succeeds at the status-verification step if AT LEAST ONE of the
application-mode and verify-complete bits is set in the status byte; only when
both are clear does it fail, with an error reporting the expected mask versus
the actual status. -/
theorem claim_C2_status_check (bus : CcsBus) (st : Nat)
    (hs : bus.setSlave CCS811_SLAVEADDR_0 = true)
    (hw : bus.blockWrite CCS811_SW_RESET [0x11, 0xE5, 0x72, 0x8A] = true)
    (ha : bus.write [CCS811_APP_START] = true)
    (hid : bus.readByte CCS811_HW_ID = some 0x81)
    (hst : bus.readByte CCS811_STATUS = some st) :
    (st &&& (CCS811_STATUS_APP_MODE ||| CCS811_STATUS_APP_VERIFY) ≠ 0 →
      CCS811.begin bus = .ok ()) ∧
    (st &&& (CCS811_STATUS_APP_MODE ||| CCS811_STATUS_APP_VERIFY) = 0 →
      CCS811.begin bus =
        .error (.statusMismatch (CCS811_STATUS_APP_MODE ||| CCS811_STATUS_APP_VERIFY) st)) := by
  constructor
  · intro hbit
    rw [CCS811.begin, hs]
    simp [CCS811.reset, CCS811.check_hw_id, CCS811.app_start, CCS811.check_status,
      hw, ha, hid, hst, Bind.bind, Except.bind, hbit]
  · intro hbit
    rw [CCS811.begin, hs]
    simp [CCS811.reset, CCS811.check_hw_id, CCS811.app_start, CCS811.check_status,
      hw, ha, hid, hst, Bind.bind, Except.bind, hbit]

/-- Claim C2, witness: on `busStatusZero` (status byte 0x00, both bits clear)
`begin` fails with the expected-versus-actual status report. -/
theorem claim_C2_witness :
    CCS811.begin busStatusZero =
      .error (.statusMismatch (CCS811_STATUS_APP_MODE ||| CCS811_STATUS_APP_VERIFY) 0) :=
  (claim_C2_status_check busStatusZero 0 rfl rfl rfl rfl rfl).2 rfl

/-- Claim C3: every call to `read_pressure()` first performs a full temperature
read that refreshes the fine-temperature value, and the returned pressure is
computed from that freshly sampled fine-value.  For two consecutive
`read_pressure` calls the second result is determined by the temperature bytes
of the second exchange alone: the stated value mentions only the bytes of
`bus2`, so the raw temperature code of the first call (and the initial
`t_fine`) cannot influence it. -/
theorem claim_C3_fresh_temperature (c : Calibration) (s : BMP280) (bus1 bus2 : I2CBus)
    (u0 u1 u2 q0 q1 q2 t0 t1 t2 p0 p1 p2 : Nat)
    (hc : s.calib = some c)
    (ht1 : bus1.read3 REG_TEMPERATURE_START = some (u0, u1, u2))
    (hp1 : bus1.read3 REG_CALIBRATION_START = some (q0, q1, q2))
    (ht2 : bus2.read3 REG_TEMPERATURE_START = some (t0, t1, t2))
    (hp2 : bus2.read3 REG_CALIBRATION_START = some (p0, p1, p2)) :
    ∃ r1 s1, BMP280.read_pressure s bus1 = .ok (r1, s1) ∧
      BMP280.read_pressure s1 bus2 =
        .ok ((pressure_int c (t_fine_calc c (rawCode20 t0 t1 t2)) (rawCode20 p0 p1 p2) : ℚ) / 25600,
          { t_fine := t_fine_calc c (rawCode20 t0 t1 t2), calib := some c }) := by
  refine ⟨_, _, BMP280.read_pressure_spec c s bus1 u0 u1 u2 q0 q1 q2 hc ht1 hp1, ?_⟩
  exact BMP280.read_pressure_spec c _ bus2 t0 t1 t2 p0 p1 p2 rfl ht2 hp2

/-- Claim C3, witness: two consecutive pressure reads over buses with differing
raw temperature codes; the second result reflects the second temperature. -/
theorem claim_C3_witness :
    busTemp1.read3 REG_TEMPERATURE_START ≠ busTemp2.read3 REG_TEMPERATURE_START ∧
    ∃ r1 s1, BMP280.read_pressure sP1 busTemp1 = .ok (r1, s1) ∧
      BMP280.read_pressure s1 busTemp2 =
        .ok ((pressure_int calP1 (t_fine_calc calP1 (rawCode20 2 0 0)) (rawCode20 0 0 0) : ℚ) / 25600,
          { t_fine := t_fine_calc calP1 (rawCode20 2 0 0), calib := some calP1 }) :=
  ⟨by decide,
    claim_C3_fresh_temperature calP1 sP1 busTemp1 busTemp2 1 0 0 0 0 0 2 0 0 0 0 0
      rfl rfl rfl rfl rfl⟩

/-- Claim C4: whenever the first-stage pressure denominator (the 64-bit
intermediate `var1` after the `dig_p1` stage, computed from the calibration and
the freshly sampled fine-temperature) is exactly zero, `read_pressure()`
returns exactly 0 hPa — an `ok` result, not a fault or an error. -/
theorem claim_C4_div_zero_guard (c : Calibration) (s : BMP280) (bus : I2CBus)
    (t0 t1 t2 p0 p1 p2 : Nat)
    (hc : s.calib = some c)
    (ht : bus.read3 REG_TEMPERATURE_START = some (t0, t1, t2))
    (hp : bus.read3 REG_CALIBRATION_START = some (p0, p1, p2))
    (hz : pressure_var1 c (t_fine_calc c (rawCode20 t0 t1 t2)) = 0) :
    BMP280.read_pressure s bus =
      .ok (0, { t_fine := t_fine_calc c (rawCode20 t0 t1 t2), calib := some c }) := by
  rw [BMP280.read_pressure_spec c s bus t0 t1 t2 p0 p1 p2 hc ht hp]
  rw [pressure_int]
  simp only [hz, if_pos rfl]
  norm_num

/-- Claim C4, witness: with the all-zero calibration (`dig_p1 = 0`) the
first-stage denominator is zero and the pressure read returns 0 hPa. -/
theorem claim_C4_witness :
    BMP280.read_pressure sZero busT000 =
      .ok (0, { t_fine := t_fine_calc calZero (rawCode20 0 0 0), calib := some calZero }) :=
  claim_C4_div_zero_guard calZero sZero busT000 0 0 0 0 0 0 rfl rfl rfl (by decide)

/-- Claim C5, counterexample: the claim states that reading before calibration
fails with a `NotCalibratedError` result value.  On an uncalibrated driver both
reads instead panic (the `expect` on the empty calibration option); the outcome
is the `panicked` constructor, not an error return. -/
theorem claim_C5_counterexample :
    BMP280.read_temperature sNoCal busT000 =
      .panicked "Temp read failed; calibration data unknown" ∧
    BMP280.read_pressure sNoCal busT000 =
      .panicked "Temp read failed; calibration data unknown" := ⟨rfl, rfl⟩

/-- Claim C5, amended: on every driver instance whose calibration has not been
loaded, `read_temperature()` and `read_pressure()` panic with the message
written at the `expect` call on the calibration option (after the bus exchange
succeeds), rather than returning an error value. -/
theorem claim_C5_uncalibrated_panics (s : BMP280) (bus : I2CBus) (t0 t1 t2 : Nat)
    (hc : s.calib = none) (ht : bus.read3 REG_TEMPERATURE_START = some (t0, t1, t2)) :
    BMP280.read_temperature s bus = .panicked "Temp read failed; calibration data unknown" ∧
    BMP280.read_pressure s bus = .panicked "Temp read failed; calibration data unknown" := by
  constructor
  · simp [BMP280.read_temperature, ht, hc]
  · simp [BMP280.read_pressure, BMP280.read_temperature, ht, hc]

/-- Claim C5, witness: a concrete uncalibrated driver on a working bus. -/
theorem claim_C5_witness :
    BMP280.read_temperature sNoCal2 busT000 =
      .panicked "Temp read failed; calibration data unknown" ∧
    BMP280.read_pressure sNoCal2 busT000 =
      .panicked "Temp read failed; calibration data unknown" :=
  claim_C5_uncalibrated_panics sNoCal2 busT000 0 0 0 rfl rfl

/-- Claim C6, counterexample: the claim states that no operation panics on bus
failure.  On a bus whose temperature-register exchange fails, the calibrated
BMP280 `read_temperature` panics. -/
theorem claim_C6_counterexample :
    busDead.read3 REG_TEMPERATURE_START = none ∧
    BMP280.read_temperature sP1 busDead = .panicked "Temp read failed on I2C" := ⟨rfl, rfl⟩

/-- Claim C6, amended: on a failed bus exchange the CCS811 and TMP102
operations return a result carrying a specific error kind, but the three BMP280
operations (`read_calibration`, `read_temperature`, `read_pressure`) panic with
fixed messages instead of returning an error. -/
theorem claim_C6_failure_modes :
    (∀ (s : BMP280) (bus : I2CBus), bus.setAddr = false →
      BMP280.read_calibration s bus = .panicked "Failed to set I2C address") ∧
    (∀ (s : BMP280) (bus : I2CBus), bus.setAddr = true →
      bus.read24 REG_CALIBRATION_START = none →
      BMP280.read_calibration s bus = .panicked "Calibration failed during I2C") ∧
    (∀ (s : BMP280) (bus : I2CBus), bus.read3 REG_TEMPERATURE_START = none →
      BMP280.read_temperature s bus = .panicked "Temp read failed on I2C") ∧
    (∀ (s : BMP280) (bus : I2CBus) (c : Calibration) (t0 t1 t2 : Nat),
      s.calib = some c → bus.read3 REG_TEMPERATURE_START = some (t0, t1, t2) →
      bus.read3 REG_CALIBRATION_START = none →
      BMP280.read_pressure s bus = .panicked "Pressure read failed during I2C") ∧
    (∀ bus : CcsBus, bus.blockRead CCS811_ALG_RESULT_DATA 8 = none →
      CCS811.read bus = .error (.busErr "Could not read chip data")) ∧
    (∀ (bus : TmpBus) (e : String), bus.read2 0x00 = .error e →
      TMP102.read bus = .error e) := by
  refine ⟨?_, ?_, ?_, ?_, ?_, ?_⟩
  · intro s bus h
    simp [BMP280.read_calibration, h]
  · intro s bus h1 h2
    simp [BMP280.read_calibration, h1, h2]
  · intro s bus h
    simp [BMP280.read_temperature, h]
  · intro s bus c t0 t1 t2 hc ht hp
    simp [BMP280.read_pressure, BMP280.read_temperature, hc, ht, hp]
  · intro bus h
    simp [CCS811.read, h]
  · intro bus e h
    simp [TMP102.read, h]

/-- Claim C6, witness: concrete failing buses for each of the six cases. -/
theorem claim_C6_witness :
    BMP280.read_calibration sP1 busNoAddr = .panicked "Failed to set I2C address" ∧
    BMP280.read_calibration sP1 busDead = .panicked "Calibration failed during I2C" ∧
    BMP280.read_temperature sZero busDead = .panicked "Temp read failed on I2C" ∧
    BMP280.read_pressure sZero busTempOnly = .panicked "Pressure read failed during I2C" ∧
    CCS811.read busDeadCcs = .error (.busErr "Could not read chip data") ∧
    TMP102.read busDeadTmp = .error "i2c failure" :=
  ⟨claim_C6_failure_modes.1 sP1 busNoAddr rfl,
    claim_C6_failure_modes.2.1 sP1 busDead rfl rfl,
    claim_C6_failure_modes.2.2.1 sZero busDead rfl,
    claim_C6_failure_modes.2.2.2.1 sZero busTempOnly calZero 0 0 0 rfl rfl rfl,
    claim_C6_failure_modes.2.2.2.2.1 busDeadCcs rfl,
    claim_C6_failure_modes.2.2.2.2.2 busDeadTmp "i2c failure" rfl⟩

/-- Claim C7, counterexample: the claim states that a decoded eCO2 outside
400..8192 ppm is reported as an out-of-range error with the data still
returned.  On `busCO300` the decoded eCO2 is 300 ppm — below the claimed 400
ppm floor — yet `read` returns plain success with no error at all: the source
checks only the upper bounds `t_voc > 1187 || e_co2 > 8192`. -/
theorem claim_C7_counterexample :
    CCS811.read busCO300 = .ok { t_voc := 0, e_co2 := 300, raw := [1, 44, 0, 0, 0, 0, 0, 0] } ∧
    300 < 400 := ⟨rfl, by norm_num⟩

/-- Claim C7, amended: for a successfully transferred 8-byte block with a clear
error byte, `read()` reports a distinct out-of-range error exactly when decoded
tVOC exceeds 1187 ppb or decoded eCO2 exceeds 8192 ppm — the 400 ppm lower
bound is not checked — and that error carries the two decoded values but not
the data record or raw bytes; blocks within those upper bounds return the
decoded data with the raw bytes and no error. -/
theorem claim_C7_range_check (bus : CcsBus) (b0 b1 b2 b3 b4 b6 b7 : Nat)
    (hr : bus.blockRead CCS811_ALG_RESULT_DATA 8 = some [b0, b1, b2, b3, b4, 0, b6, b7]) :
    (b2 * 256 + b3 > 1187 ∨ b0 * 256 + b1 > 8192 →
      CCS811.read bus = .error (.outOfRange (b2 * 256 + b3) (b0 * 256 + b1))) ∧
    (b2 * 256 + b3 ≤ 1187 → b0 * 256 + b1 ≤ 8192 →
      CCS811.read bus = .ok ⟨b2 * 256 + b3, b0 * 256 + b1, [b0, b1, b2, b3, b4, 0, b6, b7]⟩) := by
  have g0 : ([b0, b1, b2, b3, b4, 0, b6, b7].get? 0).getD 0 = b0 := rfl
  have g1 : ([b0, b1, b2, b3, b4, 0, b6, b7].get? 1).getD 0 = b1 := rfl
  have g2 : ([b0, b1, b2, b3, b4, 0, b6, b7].get? 2).getD 0 = b2 := rfl
  have g3 : ([b0, b1, b2, b3, b4, 0, b6, b7].get? 3).getD 0 = b3 := rfl
  constructor
  · intro hout
    rw [CCS811.read, hr]
    dsimp only [List.getD]
    rw [if_neg (by simp), g0, g1, g2, g3, if_pos hout]
  · intro ht he
    rw [CCS811.read, hr]
    dsimp only [List.getD]
    rw [if_neg (by simp), g0, g1, g2, g3, if_neg (by omega)]

/-- Claim C7, witness: a block decoding to tVOC = 2048 ppb yields the
out-of-range error carrying the decoded values. -/
theorem claim_C7_witness :
    CCS811.read busVocHigh = .error (.outOfRange 2048 0) := by
  have h := (claim_C7_range_check busVocHigh 0 0 8 0 0 0 0 rfl).1 (by norm_num)
  simpa using h

/-- Claim C8: for every value in the interval from 0 inclusive to 127
exclusive that is representable at 1/512 resolution (that is, `k / 512` with
`k < 65024`), encoding with `float_to_bytes` and decoding with the datasheet
inverse formula recovers the value to within 1/512.  On these grid inputs
every floating-point operation in the source is exact, so the rational
embedding is faithful. -/
theorem claim_C8_roundtrip (k : Nat) (hk : k < 65024) :
    |((k : ℚ) / 512) -
      env_decode (float_to_bytes ((k : ℚ) / 512)).1 (float_to_bytes ((k : ℚ) / 512)).2| ≤ 1 / 512 := by
  obtain ⟨a, b, hb, rfl⟩ : ∃ a b, b < 512 ∧ k = 512 * a + b :=
    ⟨k / 512, k % 512, by omega, by omega⟩
  have ha : a < 127 := by omega
  have hv : ((512 * a + b : ℕ) : ℚ) / 512 = (a : ℚ) + (b : ℚ) / 512 := by
    push_cast
    ring
  rw [hv, float_to_bytes_grid a b ha hb]
  set f : Nat := if b = 0 then 0 else b - 1 with hf
  have hbound : f ≤ b ∧ b ≤ f + 1 := by rw [hf]; split <;> omega
  have hf512 : f < 512 := by omega
  rw [env_decode_grid a f (by omega) hf512]
  have hc1 : (f : ℚ) ≤ (b : ℚ) := by exact_mod_cast hbound.1
  have hc2 : (b : ℚ) ≤ (f : ℚ) + 1 := by exact_mod_cast hbound.2
  rw [abs_le]
  constructor <;> linarith

/-- Claim C8, witness: the value 700/512 (= 1 + 188/512) round-trips to within
1/512. -/
theorem claim_C8_witness :
    700 < 65024 ∧
    |((700 : ℚ) / 512) -
      env_decode (float_to_bytes ((700 : ℚ) / 512)).1 (float_to_bytes ((700 : ℚ) / 512)).2|
      ≤ 1 / 512 :=
  ⟨by norm_num, claim_C8_roundtrip 700 (by norm_num)⟩

/-- Claim C9: for every byte pair returned by the transport, `read()` of the
TMP102 returns exactly the assembled 12-bit code times 0.0625 degrees when bit
11 of the code is clear, and the code or-ed with 0xF000, reinterpreted as a
16-bit two's-complement value (that is, minus 65536), times 0.0625 degrees when
bit 11 is set. -/
theorem claim_C9_decode (bus : TmpBus) (b0 b1 : Nat) (h0 : b0 < 256) (h1 : b1 < 256)
    (hr : bus.read2 0x00 = .ok (b0, b1)) :
    (((b0 <<< 4) ||| (b1 >>> 4)) &&& 0x800 = 0 →
      TMP102.read bus = .ok ((((b0 <<< 4) ||| (b1 >>> 4) : Nat) : ℚ) * 0.0625)) ∧
    (((b0 <<< 4) ||| (b1 >>> 4)) &&& 0x800 ≠ 0 →
      TMP102.read bus = .ok ((((((b0 <<< 4) ||| (b1 >>> 4)) ||| 0xF000 : Nat) : ℚ) - 65536) * 0.0625)) := by
  have h16 : (0.0625 : ℚ) = 1 / 16 := by norm_num
  constructor
  · intro hbit
    rw [TMP102.read, hr]
    dsimp only
    rw [if_pos hbit, h16]
    congr 1
    ring
  · intro hbit
    rw [TMP102.read, hr]
    dsimp only
    rw [if_neg hbit, h16]
    rw [i16ofBits, if_neg (or_hi_not_lt _)]
    congr 1
    push_cast
    ring

/-- Claim C9, witness: raw code 0xF00 (bit 11 set) decodes to -16 degrees, and
raw code 0x000 decodes to 0 degrees. -/
theorem claim_C9_witness :
    TMP102.read busTmpNeg = .ok (-16 : ℚ) ∧ TMP102.read busTmpZero = .ok 0 := by
  constructor
  · have h := (claim_C9_decode busTmpNeg 0xF0 0 (by norm_num) (by norm_num) rfl).2 (by decide)
    have e : ((0xF0 <<< 4 ||| 0 >>> 4) ||| 0xF000 : Nat) = 65280 := by decide
    rw [e] at h
    rw [h]
    norm_num
  · have h := (claim_C9_decode busTmpZero 0 0 (by norm_num) (by norm_num) rfl).1 (by decide)
    have e : (0 <<< 4 ||| 0 >>> 4 : Nat) = 0 := by decide
    rw [e] at h
    rw [h]
    norm_num

/-- Claim C10: for every transferred 8-byte result block whose byte at index 5
(the chip error byte) is nonzero, `read()` of the CCS811 returns an error
carrying only that byte — no measurement data — regardless of the decoded
eCO2 and tVOC values. -/
theorem claim_C10_error_byte (bus : CcsBus) (b0 b1 b2 b3 b4 b5 b6 b7 : Nat)
    (hr : bus.blockRead CCS811_ALG_RESULT_DATA 8 = some [b0, b1, b2, b3, b4, b5, b6, b7])
    (hb5 : b5 ≠ 0) :
    CCS811.read bus = .error (.dataError b5) := by
  rw [CCS811.read, hr]
  simp [List.getD, hb5]

/-- Claim C10, witness: a block with in-range readings (eCO2 = 450 ppm, tVOC =
0 ppb) but error byte 1 still yields the error result. -/
theorem claim_C10_witness :
    400 ≤ 1 * 256 + 194 ∧ 1 * 256 + 194 ≤ 8192 ∧
    CCS811.read busErrByte = .error (.dataError 1) :=
  ⟨by norm_num, by norm_num,
    claim_C10_error_byte busErrByte 1 194 0 0 0 1 0 0 rfl (by norm_num)⟩
